import Mathlib

/-!
# LocalLibrary catalog: models and controllers

A shallow embedding of `models/author.js`, `models/genre.js`, `models/book.js`,
`controllers/authorController.js`, `controllers/genreController.js` and the delete
form of `controllers/bookinstanceController.js`.

Conventions of the embedding:

* A collection is a list of documents in natural (insertion) order.
* An `ObjectId` is represented by its hexadecimal text.
* Store operations always succeed (the callback parameter `err` is null), except
  for `save`, which runs schema validation and rejects a duplicate `_id`, and
  for the queries of the two delete POST handlers, which cast the id text taken
  from the request body and fail when it names no ObjectId.
* A handler returns the sequence of calls it makes on `res` / `next` (or the
  exception it throws) together with the store it leaves behind.
-/

namespace LocalLibrary

/-! ## Data model -/

abbrev ObjectId := String

/-- A JavaScript `Date`, as milliseconds since the epoch. -/
structure JSDate where
  ms : Int
deriving DecidableEq, Repr

/-- Document of the `Author` collection (`models/author.js`). A path that is
missing from the document (`undefined` or `null`) is `none`. -/
structure Author where
  _id : ObjectId
  first_name : Option String
  family_name : Option String
  date_of_birth : Option JSDate
  date_of_death : Option JSDate
deriving DecidableEq, Repr

/-- Document of the `Genre` collection (`models/genre.js`). -/
structure Genre where
  _id : ObjectId
  name : String
deriving DecidableEq, Repr

/-- Document of the `Book` collection (`models/book.js`). -/
structure Book where
  _id : ObjectId
  title : String
  author : ObjectId
  summary : String
  isbn : String
  genre : List ObjectId
deriving DecidableEq, Repr

/-- The document store: one list per collection used by the two controllers. -/
structure Store where
  authors : List Author
  genres : List Genre
  books : List Book
deriving DecidableEq, Repr

/-! ## JavaScript helpers -/

/-- Truthiness of a string-valued path: `undefined`, `null` and `""` are falsy. -/
def truthy : Option String → Bool
  | none => false
  | some s => s != ""

/-- Text of a string-valued path inside a template literal. -/
def jsStr : Option String → String
  | none => "undefined"
  | some s => s

/-- Number of UTF-16 code units of a string (JavaScript `length`). -/
def jsLength (s : String) : Nat :=
  (s.data.map fun c => if c.val.toNat < 65536 then 1 else 2).sum

/-- The pieces of `cs` between occurrences of `sep`; `acc` is the current piece,
reversed. -/
def splitAux (sep : Char) : List Char → List Char → List String
  | [], acc => [String.mk acc.reverse]
  | c :: cs, acc =>
    if c = sep then String.mk acc.reverse :: splitAux sep cs []
    else splitAux sep cs (c :: acc)

/-- JavaScript `str.split(sep)` for a one-character separator. -/
def jsSplit (s : String) (sep : Char) : List String :=
  splitAux sep s.data []

/-! ## `models/author.js` -/

/-- Virtual `name`. -/
def Author.name (a : Author) : String :=
  let fullname := ""
  let fullname :=
    if truthy a.first_name && truthy a.family_name then
      jsStr a.family_name ++ ", " ++ jsStr a.first_name
    else fullname
  let fullname :=
    if !truthy a.first_name || !truthy a.family_name then "" else fullname
  fullname

/-- Virtual `url`. -/
def Author.url (a : Author) : String :=
  "/catalog/author/" ++ a._id

/-- Virtual `lifespan`; `fmt d` stands for
`DateTime.fromJSDate(d).toLocaleString(DateTime.DATE_MED)`. -/
def Author.lifespan (fmt : JSDate → String) (a : Author) : String :=
  let lifespan_string := ""
  let lifespan_string :=
    match a.date_of_birth with
    | some b => fmt b
    | none => lifespan_string
  let lifespan_string :=
    match a.date_of_death with
    | some d =>
      let lifespan_string :=
        if lifespan_string ≠ "" then lifespan_string ++ " - " else lifespan_string
      lifespan_string ++ fmt d
    | none => lifespan_string
  lifespan_string

/-! ## `models/genre.js`, `models/book.js` -/

/-- Virtual `url`. -/
def Genre.url (g : Genre) : String :=
  "/catalog/genre/" ++ g._id

/-- Virtual `url`. -/
def Book.url (b : Book) : String :=
  "/catalog/book/" ++ b._id

/-- Schema validation of a Genre on `save`: `name` is required and has
`minLength: 3`, `maxLength: 100`. -/
def Genre.validateSync (g : Genre) : Bool :=
  g.name != "" && decide (3 ≤ jsLength g.name) && decide (jsLength g.name ≤ 100)

/-! ## `express-validator` sanitizers and validators -/

/-- Characters matched by the regular expression class `\s`. -/
def isJsSpace (c : Char) : Bool :=
  let n := c.val.toNat
  [9, 10, 11, 12, 13, 32, 160, 5760, 8232, 8233, 8239, 8287, 12288, 65279].contains n
    || (decide (8192 ≤ n) && decide (n ≤ 8202))

/-- Sanitizer `trim()`: removes whitespace from both ends. -/
def trim (s : String) : String :=
  String.mk ((s.data.dropWhile isJsSpace).reverse.dropWhile isJsSpace).reverse

/-- Replacement text of one character under `escape()`. -/
def escapeChar (c : Char) : List Char :=
  let n := c.val.toNat
  if n = 38 then "&amp;".data
  else if n = 34 then "&quot;".data
  else if n = 39 then "&#x27;".data
  else if n = 60 then "&lt;".data
  else if n = 62 then "&gt;".data
  else if n = 47 then "&#x2F;".data
  else if n = 92 then "&#x5C;".data
  else if n = 96 then "&#96;".data
  else [c]

/-- Sanitizer `escape()`: replaces the HTML-special characters by entities. -/
def escape (s : String) : String :=
  String.mk (s.data.flatMap escapeChar)

/-- Validator `isLength({ min })`: counts code points. -/
def isLength (s : String) (min : Nat) : Bool :=
  decide (min ≤ s.length)

/-- One character of `[0-9A-Za-z]`. -/
def isAlnumChar (c : Char) : Bool :=
  let n := c.val.toNat
  (decide (48 ≤ n) && decide (n ≤ 57)) || (decide (65 ≤ n) && decide (n ≤ 90))
    || (decide (97 ≤ n) && decide (n ≤ 122))

/-- Validator `isAlphanumeric()` with the default locale `en-US`. -/
def isAlphanumeric (s : String) : Bool :=
  s != "" && s.data.all isAlnumChar

/-! ## Responses -/

/-- Exceptions thrown by a handler body. -/
inductive JSError
  | typeError
  | referenceError
deriving DecidableEq, Repr

/-- Error object handed to `next`. -/
structure HttpError where
  message : String
  status : Option Nat
deriving DecidableEq, Repr

/-- A date path of a document under construction: not set (`undefined`), `null`,
or a date. -/
inductive DatePath
  | unset
  | null
  | date (d : JSDate)
deriving DecidableEq, Repr

/-- Document built by `new Author(...)` in the update handler. -/
structure AuthorDoc where
  _id : ObjectId
  first_name : String
  family_name : String
  date_of_birth : DatePath
  date_of_death : DatePath
deriving DecidableEq, Repr

/-- Modelled from the spec: document of the `BookInstance` collection
(`models/bookinstance.js` is not among the sources): a reference to one Book, an
imprint, a status and an optional due date. -/
structure BookInstance where
  _id : ObjectId
  book : ObjectId
  imprint : String
  status : String
  due_back : Option JSDate
deriving DecidableEq, Repr

/-- A BookInstance after `populate("book")`: the reference is replaced by the
Book, or by `null` when no Book has that id. -/
structure PopulatedBookInstance where
  _id : ObjectId
  book : Option Book
  imprint : String
  status : String
  due_back : Option JSDate
deriving DecidableEq, Repr

/-- A value handed to a view. -/
inductive Value
  | undefined
  | str (s : String)
  | author (a : Option Author)
  | authorDoc (a : AuthorDoc)
  | genre (g : Option Genre)
  | book (b : Option Book)
  | books (bs : List Book)
  | errors (es : List String)
  | bookinstance (b : Option PopulatedBookInstance)
deriving DecidableEq, Repr

/-- One call on the response object (or on `next`), or an exception. -/
inductive Action
  | render (view : String) (locals : List (String × Value))
  | redirect (url : String)
  | next (err : HttpError)
  | throws (err : JSError)
deriving DecidableEq, Repr

/-- What a handler does: its calls, in order, and the resulting store. -/
structure Outcome where
  actions : List Action
  store : Store
deriving DecidableEq, Repr

/-- Value of `locals[key]` as a view reads it. -/
def viewLocal (locals : List (String × Value)) (key : String) : Value :=
  match locals.find? (fun kv => kv.1 == key) with
  | some kv => kv.2
  | none => Value.undefined

/-! ## Store operations (Mongoose model methods) -/

/-- One hexadecimal digit, in either letter case. -/
def isHexDigit (c : Char) : Bool :=
  let n := c.val.toNat
  (decide (48 ≤ n) && decide (n ≤ 57)) || (decide (65 ≤ n) && decide (n ≤ 70))
    || (decide (97 ≤ n) && decide (n ≤ 102))

/-- Lower-case form of a hexadecimal digit. -/
def lowerHexDigit (c : Char) : Char :=
  if c = 'A' then 'a'
  else if c = 'B' then 'b'
  else if c = 'C' then 'c'
  else if c = 'D' then 'd'
  else if c = 'E' then 'e'
  else if c = 'F' then 'f'
  else c

/-- The hexadecimal digit of a number below 16. -/
def hexDigitOf (n : Nat) : Char :=
  "0123456789abcdef".data.getD n '0'

/-- The two hexadecimal digits of one byte. -/
def byteHex (c : Char) : List Char :=
  [hexDigitOf (c.val.toNat / 16), hexDigitOf (c.val.toNat % 16)]

/-- Cast of a text to an ObjectId, as a query does it for `_id` and for a
reference path: 24 hexadecimal digits name the id in either letter case, a text
of 12 one-byte characters is taken as the 12 bytes of the id, and any other text
fails with a `CastError` (`none`). The result is the hexadecimal text of the id. -/
def castObjectId (s : String) : Option ObjectId :=
  if decide (s.data.length = 24) && s.data.all isHexDigit then
    some (String.mk (s.data.map lowerHexDigit))
  else if decide (s.data.length = 12) && s.data.all (fun c => decide (c.val.toNat < 128)) then
    some (String.mk (s.data.flatMap byteHex))
  else none

/-- The `CastError` a query reports for a text that names no ObjectId; it has no
`status`. -/
def castError : HttpError :=
  { message := "Cast to ObjectId failed", status := none }

/-- Filters used with `Book.find`. -/
inductive BookFilter
  | author (id : ObjectId)
  | genre (id : ObjectId)
deriving DecidableEq, Repr

/-- Whether a book matches a filter; an array path matches when it contains the
value. -/
def BookFilter.isMatch : BookFilter → Book → Bool
  | .author id, b => b.author == id
  | .genre id, b => b.genre.contains id

/-- Query `Book.find(filter)`. -/
def Book.find (s : Store) (f : BookFilter) : List Book :=
  s.books.filter f.isMatch

/-- Query `Book.findById(id)`. -/
def Book.findById (s : Store) (id : ObjectId) : Option Book :=
  s.books.find? fun b => b._id == id

/-- Query `Author.findById(id)`. -/
def Author.findById (s : Store) (id : ObjectId) : Option Author :=
  s.authors.find? fun a => a._id == id

/-- Query `Genre.findById(id)`. -/
def Genre.findById (s : Store) (id : ObjectId) : Option Genre :=
  s.genres.find? fun g => g._id == id

/-- Query `Genre.findOne({ name })`. -/
def Genre.findOne (s : Store) (name : String) : Option Genre :=
  s.genres.find? fun g => g.name == name

/-- Operation `Author.findByIdAndRemove(id)`: deletes the document with that
`_id`, if there is one. -/
def Author.findByIdAndRemove (s : Store) (id : ObjectId) : Store :=
  { s with authors := s.authors.eraseP fun a => a._id == id }

/-- Operation `Genre.findByIdAndRemove(id)`. -/
def Genre.findByIdAndRemove (s : Store) (id : ObjectId) : Store :=
  { s with genres := s.genres.eraseP fun g => g._id == id }

/-- Operation `genre.save()` for a new document: schema validation, then insert;
`none` stands for the error passed to the callback. -/
def Genre.save (s : Store) (g : Genre) : Option Store :=
  if !g.validateSync then none
  else if s.genres.any (fun h => h._id == g._id) then none
  else some { s with genres := s.genres ++ [g] }

/-- Replaces the first genre with the given `_id` by `doc`. -/
def replaceFirstGenre (id : ObjectId) (doc : Genre) : List Genre → List Genre
  | [] => []
  | g :: gs => if g._id == id then doc :: gs else g :: replaceFirstGenre id doc gs

/-- Operation `Genre.findByIdAndUpdate(id, doc, {})`: as for authors, no upsert,
no validators, the original document is returned; `doc` sets both paths of a
Genre. -/
def Genre.findByIdAndUpdate (s : Store) (id : ObjectId) (doc : Genre) :
    Option Genre × Store :=
  match Genre.findById s id with
  | none => (none, s)
  | some g => (some g, { s with genres := replaceFirstGenre id doc s.genres })

/-- Query `BookInstance.findById(id)` on the BookInstance collection. -/
def BookInstance.findById (instances : List BookInstance) (id : ObjectId) :
    Option BookInstance :=
  instances.find? fun b => b._id == id

/-- Step `populate("book")` of a BookInstance query. -/
def BookInstance.populate (s : Store) (b : BookInstance) : PopulatedBookInstance :=
  { _id := b._id
    book := Book.findById s b.book
    imprint := b.imprint
    status := b.status
    due_back := b.due_back }

/-- Effect of `$set` on one date path: a path that is not set on the update
document is left as it is. -/
def DatePath.applyTo (p : DatePath) (old : Option JSDate) : Option JSDate :=
  match p with
  | .unset => old
  | .null => none
  | .date d => some d

/-- Document after `$set` of the paths that are set on `doc`. -/
def AuthorDoc.applyTo (doc : AuthorDoc) (a : Author) : Author :=
  { _id := doc._id
    first_name := some doc.first_name
    family_name := some doc.family_name
    date_of_birth := doc.date_of_birth.applyTo a.date_of_birth
    date_of_death := doc.date_of_death.applyTo a.date_of_death }

/-- Replaces the first author with the given `_id` by `f` of it. -/
def updateFirst (id : ObjectId) (f : Author → Author) : List Author → List Author
  | [] => []
  | a :: as => if a._id == id then f a :: as else a :: updateFirst id f as

/-- Operation `Author.findByIdAndUpdate(id, doc)` with default options (no upsert,
no validators, the original document is returned): the update is applied as
`$set` of the paths set on `doc`; the result is `null` when nothing matches. -/
def Author.findByIdAndUpdate (s : Store) (id : ObjectId) (doc : AuthorDoc) :
    Option Author × Store :=
  match Author.findById s id with
  | none => (none, s)
  | some a => (some a, { s with authors := updateFirst id doc.applyTo s.authors })

/-! ## Request bodies -/

/-- A date field of a submitted form, described by what the validation chain
`optional({ checkFalsy: true }).isISO8601().toDate()` sees: the field is missing,
is the empty string, or is a non-empty text with its `isISO8601` verdict and its
`toDate` conversion. -/
inductive DateField
  | missing
  | empty
  | text (isISO8601 : Bool) (toDate : Option JSDate)
deriving DecidableEq, Repr

/-- Whether the chain reports an error for the field: a falsy value skips the
chain. -/
def DateField.hasError : DateField → Bool
  | .missing => false
  | .empty => false
  | .text ok _ => !ok

/-- Value of the path on the document built from the sanitized body: `undefined`
leaves the path unset, the empty string is cast to `null`. -/
def DateField.toPath : DateField → DatePath
  | .missing => .unset
  | .empty => .null
  | .text _ (some d) => .date d
  | .text _ none => .null

/-- Body of the Author update form. -/
structure AuthorBody where
  first_name : String
  family_name : String
  date_of_birth : DateField
  date_of_death : DateField
deriving DecidableEq, Repr

/-- Errors collected by `validationResult` for the Author update chains. -/
def authorUpdateErrors (body : AuthorBody) : List String :=
  (if isLength (trim body.first_name) 1 then [] else ["first name must not be empty"])
  ++ (if isAlphanumeric (escape (trim body.first_name)) then []
      else ["first name has non alphanumeric characters"])
  ++ (if isLength (trim body.family_name) 1 then [] else ["family name must not be empty"])
  ++ (if isAlphanumeric (escape (trim body.family_name)) then []
      else ["family name has non alphanumeric characters"])
  ++ (if body.date_of_birth.hasError then ["invalid date of birth"] else [])
  ++ (if body.date_of_death.hasError then ["invalid date of death"] else [])

/-! ## `controllers/authorController.js` -/

/-- Handler `author_delete_get`, with `req.params.id = id`. -/
def author_delete_get (s : Store) (id : ObjectId) : Outcome :=
  let author := Author.findById s id
  let author_books := Book.find s (.author id)
  let redirected :=
    if author.isNone then [Action.redirect "/catalog/authors"] else []
  { actions := redirected ++
      [Action.render "author_delete"
        [("title", .str "Delete Author"),
         ("author", .author author),
         ("author_books", .books author_books)]]
    store := s }

/-- Handler `author_delete_post`, with `req.body.authorid = authorid`, a text of
the request. The queries cast it to an ObjectId; a failed cast is the `err` of
the joined callback, which logs it with `debug` and passes it to `next`. The
later `findByIdAndRemove` casts the same text, so its `err` is null. -/
def author_delete_post (s : Store) (authorid : String) : Outcome :=
  match castObjectId authorid with
  | none => { actions := [Action.next castError], store := s }
  | some id =>
    let author := Author.findById s id
    let author_books := Book.find s (.author id)
    if author_books.length > 0 then
      { actions :=
          [Action.render "author_delete"
            [("title", .str "Delete Author"),
             ("author", .author author),
             ("authors_books", .books author_books)]]
        store := s }
    else
      { actions := [Action.redirect "/catalog/authors"]
        store := Author.findByIdAndRemove s id }

/-- Handler `author_update_post`, with `req.params.id = id` and `req.body = body`. -/
def author_update_post (s : Store) (id : ObjectId) (body : AuthorBody) : Outcome :=
  let errors := authorUpdateErrors body
  let author : AuthorDoc :=
    { first_name := escape (trim body.first_name)
      family_name := escape (trim body.family_name)
      date_of_birth := body.date_of_birth.toPath
      date_of_death := body.date_of_death.toPath
      _id := id }
  if !errors.isEmpty then
    { actions :=
        [Action.render "author_form"
          [("title", .str "Update Author"),
           ("author", .authorDoc author),
           ("errors", .errors errors)]]
      store := s }
  else
    match Author.findByIdAndUpdate s id author with
    | (none, s') => { actions := [Action.throws .typeError], store := s' }
    | (some theauthor, s') => { actions := [Action.redirect theauthor.url], store := s' }

/-- Handler `author_update_get`, with `req.params.id = id`. -/
def author_update_get (s : Store) (id : ObjectId) : Outcome :=
  match Author.findById s id with
  | none =>
    { actions := [Action.next { message := "Author not found", status := some 404 }]
      store := s }
  | some author =>
    { actions :=
        [Action.render "author_form"
          [("title", .str "Update author"),
           ("author", .author (some author))]]
      store := s }

/-! ## `controllers/genreController.js` -/

/-- Handler `genre_create_post`, with `req.body.name = name`; `newId` is the
`_id` generated by `new Genre(...)`. The identifier `debug` is not defined in
this module, so reaching a call of it throws. -/
def genre_create_post (s : Store) (newId : ObjectId) (name : String) : Outcome :=
  let errors := if isLength (trim name) 1 then [] else ["Genre name required"]
  let name := escape (trim name)
  let genre : Genre := { name := name, _id := newId }
  if !errors.isEmpty then
    { actions :=
        [Action.render "genre_form"
          [("title", .str "Create Genre"),
           ("genre", .genre (some genre)),
           ("errors", .errors errors)]]
      store := s }
  else
    match Genre.findOne s name with
    | some found_genre =>
      let correctUrlPath :=
        "/catalog/genre/" ++ jsStr ((jsSplit found_genre.url '/').get? 1)
      { actions := [Action.redirect correctUrlPath], store := s }
    | none =>
      match Genre.save s genre with
      | none => { actions := [Action.throws .referenceError], store := s }
      | some s' => { actions := [Action.redirect genre.url], store := s' }

/-- Handler `genre_delete_get`, with `req.params.id = id`. The joined results
have the keys `genre` and `books`; `results.book` is `undefined`. -/
def genre_delete_get (s : Store) (id : ObjectId) : Outcome :=
  let results : List (String × Value) :=
    [("genre", .genre (Genre.findById s id)),
     ("books", .books (Book.find s (.genre id)))]
  let redirected :=
    if viewLocal results "genre" = .genre none then [Action.redirect "/catalog/genres"]
    else []
  { actions := redirected ++
      [Action.render "genre_delete"
        [("title", .str "Delete Genre"),
         ("genre", viewLocal results "genre"),
         ("genre_books", viewLocal results "book")]]
    store := s }

/-- Handler `genre_delete_post`, with `req.body.genre = genre`, a text of the
request. The queries cast it to an ObjectId; a failed cast is the `err` of the
joined callback, whose error branch calls `debug`, which is not defined in this
module, and so throws. The later `findByIdAndRemove` casts the same text, so its
`err` is null. -/
def genre_delete_post (s : Store) (genre : String) : Outcome :=
  match castObjectId genre with
  | none => { actions := [Action.throws .referenceError], store := s }
  | some id =>
    let found := Genre.findById s id
    let genre_books := Book.find s (.genre id)
    if genre_books.length > 0 then
      { actions :=
          [Action.render "genre_delete"
            [("title", .str "Delete Genre"),
             ("genre", .genre found),
             ("genre_books", .books genre_books)]]
        store := s }
    else
      { actions := [Action.redirect "/catalog/genres"]
        store := Genre.findByIdAndRemove s id }

/-- Handler `genre_update_get`, with `req.params.id = id`. The lookup is
`Book.findById`; its result is bound to the name `genre`. -/
def genre_update_get (s : Store) (id : ObjectId) : Outcome :=
  match Book.findById s id with
  | none =>
    { actions := [Action.next { message := "genre not found", status := some 404 }]
      store := s }
  | some genre =>
    { actions :=
        [Action.render "genre_form"
          [("title", .str "Update genre"),
           ("genre", .book (some genre))]]
      store := s }

/-- Handler `genre_update_post`, with `req.params.id = id` and
`req.body.name = name`. -/
def genre_update_post (s : Store) (id : ObjectId) (name : String) : Outcome :=
  let errors :=
    if isLength (trim name) 1 then [] else ["Name must have at least 3 characters."]
  let name := escape (trim name)
  let genre : Genre := { name := name, _id := id }
  if !errors.isEmpty then
    { actions :=
        [Action.render "genre_form"
          [("title", .str "Update Genre"),
           ("genre", .genre (some genre)),
           ("errors", .errors errors)]]
      store := s }
  else
    match Genre.findByIdAndUpdate s id genre with
    | (none, s') => { actions := [Action.throws .typeError], store := s' }
    | (some thegenre, s') => { actions := [Action.redirect thegenre.url], store := s' }

/-! ## `controllers/bookinstanceController.js` -/

/-- Handler `bookinstance_delete_get`, with `req.params.id = id`, over the
BookInstance collection `instances`. -/
def bookinstance_delete_get (s : Store) (instances : List BookInstance) (id : ObjectId) :
    Outcome :=
  let bookinstance := (BookInstance.findById instances id).map (BookInstance.populate s)
  let redirected :=
    if bookinstance.isNone then [Action.redirect "/catalog/bookinstances"] else []
  { actions := redirected ++
      [Action.render "bookinstance_delete"
        [("title", .str "Delete Book Instance"),
         ("bookinstance", .bookinstance bookinstance)]]
    store := s }

/-- Number of calls an outcome makes that send a response or pass control on:
`render`, `redirect` and `next`. -/
def responseCount (o : Outcome) : Nat :=
  (o.actions.filter fun
    | .throws _ => false
    | _ => true).length

/-! ## Well-formed stores -/

/-- The `_id` index of every collection is unique. -/
def Store.uniqueIds (s : Store) : Prop :=
  (s.authors.map fun a => a._id).Nodup ∧ (s.genres.map fun g => g._id).Nodup
    ∧ (s.books.map fun b => b._id).Nodup

instance (s : Store) : Decidable s.uniqueIds := by
  unfold Store.uniqueIds
  infer_instance

/-- Locals of every `render` call of an outcome, in order. -/
def renderedLocals (o : Outcome) : List (List (String × Value)) :=
  o.actions.filterMap fun
    | .render _ locals => some locals
    | _ => none

/-! ## Sample data -/

/-- A stand-in formatter for examples: the decimal time stamp after a letter. -/
def stampFmt (d : JSDate) : String :=
  String.mk ('t' :: (toString d.ms).data)

/-- An Author with both dates, referenced by `emma`. -/
def austen : Author :=
  { _id := "64b7f1a2c3d4e5f601234501"
    first_name := some "Jane"
    family_name := some "Austen"
    date_of_birth := some ⟨-6125328000000⟩
    date_of_death := some ⟨-4812566400000⟩ }

/-- An Author without Books. -/
def leGuin : Author :=
  { _id := "64b7f1a2c3d4e5f601234502"
    first_name := some "Ursula"
    family_name := some "Le Guin"
    date_of_birth := some ⟨-1269907200000⟩
    date_of_death := none }

/-- A Genre listed by `emma`. -/
def fantasy : Genre :=
  { _id := "64b7f1a2c3d4e5f601234511", name := "Fantasy" }

/-- A Genre no Book lists. -/
def poetry : Genre :=
  { _id := "64b7f1a2c3d4e5f601234512", name := "Poetry" }

/-- A Book by `austen` in the genre `fantasy`. -/
def emma : Book :=
  { _id := "64b7f1a2c3d4e5f601234521"
    title := "Emma"
    author := "64b7f1a2c3d4e5f601234501"
    summary := "A novel"
    isbn := "9780141439587"
    genre := ["64b7f1a2c3d4e5f601234511"] }

/-- A small catalog. -/
def sampleStore : Store :=
  { authors := [austen, leGuin], genres := [fantasy, poetry], books := [emma] }

/-- A valid update form that carries the two names and no date fields. -/
def namesOnlyBody : AuthorBody :=
  { first_name := "Jane"
    family_name := "Austen"
    date_of_birth := .missing
    date_of_death := .missing }

/-- A valid update form with a birth date and an empty death-date field. -/
def datedBody : AuthorBody :=
  { first_name := " Jane "
    family_name := "Austen"
    date_of_birth := .text true (some ⟨-6125241600000⟩)
    date_of_death := .empty }

/-- A copy of `emma`. -/
def emmaCopy : BookInstance :=
  { _id := "64b7f1a2c3d4e5f601234531"
    book := "64b7f1a2c3d4e5f601234521"
    imprint := "Penguin Classics, 2003"
    status := "Available"
    due_back := none }

/-! ## Lemmas on lists of documents -/

section ListLemmas

variable {α : Type} (key : α → ObjectId) (id : ObjectId)

theorem eraseP_key_absent (l : List α) (h : (l.map key).Nodup) :
    ∀ a ∈ l.eraseP (fun a => key a == id), key a ≠ id := by
  induction l with
  | nil => simp
  | cons x xs ih =>
    rw [List.map_cons, List.nodup_cons] at h
    by_cases hx : key x = id
    · have hp : (fun a => key a == id) x = true := by simp [hx]
      rw [List.eraseP_cons_of_pos (p := fun a => key a == id) hp]
      intro a ha hid
      exact h.1 (List.mem_map.2 ⟨a, ha, by rw [hid, hx]⟩)
    · have hp : ¬ (fun a => key a == id) x = true := by simp [hx]
      rw [List.eraseP_cons_of_neg (p := fun a => key a == id) hp]
      intro a ha
      rcases List.mem_cons.1 ha with rfl | ha
      · exact hx
      · exact ih h.2 a ha

theorem filter_eraseP_key (l : List α) :
    (l.eraseP (fun a => key a == id)).filter (fun a => key a != id)
      = l.filter (fun a => key a != id) := by
  induction l with
  | nil => simp
  | cons x xs ih =>
    by_cases hx : key x = id
    · have hp : (fun a => key a == id) x = true := by simp [hx]
      rw [List.eraseP_cons_of_pos (p := fun a => key a == id) hp]
      simp [List.filter_cons, hx]
    · have hp : ¬ (fun a => key a == id) x = true := by simp [hx]
      rw [List.eraseP_cons_of_neg (p := fun a => key a == id) hp]
      simp [List.filter_cons, hx, ih]

theorem eraseP_key_noop (l : List α) (h : ∀ a ∈ l, key a ≠ id) :
    l.eraseP (fun a => key a == id) = l := by
  apply List.eraseP_of_forall_not
  intro a ha
  simpa using h a ha

end ListLemmas

theorem book_find_author (s : Store) (id : ObjectId) :
    Book.find s (.author id) = s.books.filter (fun b => decide (b.author = id)) := by
  unfold Book.find
  apply List.filter_congr
  intro b _
  show (b.author == id) = decide (b.author = id)
  rfl

theorem book_find_genre (s : Store) (id : ObjectId) :
    Book.find s (.genre id) = s.books.filter (fun b => decide (id ∈ b.genre)) := by
  unfold Book.find
  apply List.filter_congr
  intro b _
  simp [BookFilter.isMatch]

theorem filter_length_pos_iff {α : Type} (p : α → Bool) (l : List α) :
    (l.filter p).length > 0 ↔ ∃ a ∈ l, p a = true := by
  rw [gt_iff_lt, List.length_pos, ne_eq, List.filter_eq_nil_iff]
  push_neg
  rfl

/-! ## Derived fields of an Author -/

/-- C6: the display name is `family_name, first_name` when both names are
non-empty strings and the empty string when either is empty or missing. -/
theorem author_name_spec (a : Author) :
    (∀ f l, a.first_name = some f → a.family_name = some l → f ≠ "" → l ≠ "" →
        a.name = l ++ ", " ++ f)
    ∧ ((a.first_name = none ∨ a.first_name = some "" ∨ a.family_name = none
          ∨ a.family_name = some "") → a.name = "") := by
  constructor
  · intro f l hf hl hfe hle
    simp [Author.name, truthy, jsStr, hf, hl, hfe, hle]
  · intro h
    rcases h with h | h | h | h <;> simp [Author.name, truthy, h]

theorem author_name_spec_witness :
    Author.name ⟨"64b7f1a2c3d4e5f601234501", some "Ursula", some "Le Guin", none, none⟩
        = "Le Guin" ++ ", " ++ "Ursula"
    ∧ Author.name ⟨"64b7f1a2c3d4e5f601234501", some "", some "Le Guin", none, none⟩ = "" :=
  ⟨(author_name_spec ⟨"64b7f1a2c3d4e5f601234501", some "Ursula", some "Le Guin", none, none⟩).1
      "Ursula" "Le Guin" rfl rfl (by decide) (by decide),
   (author_name_spec ⟨"64b7f1a2c3d4e5f601234501", some "", some "Le Guin", none, none⟩).2
      (Or.inr (Or.inl rfl))⟩

/-- C7: for a formatter that never yields the empty string, the lifespan is
empty without dates, the formatted birth date alone, the formatted death date
alone without separator, or both joined by `" - "`; the separator appears
exactly when both dates are present. -/
theorem author_lifespan_spec (fmt : JSDate → String) (hfmt : ∀ d, fmt d ≠ "") (a : Author) :
    (a.lifespan fmt =
      match a.date_of_birth, a.date_of_death with
      | none, none => ""
      | some b, none => fmt b
      | none, some d => fmt d
      | some b, some d => fmt b ++ " - " ++ fmt d)
    ∧ a.lifespan fmt =
        (a.date_of_birth.map fmt).getD ""
          ++ (if a.date_of_birth.isSome ∧ a.date_of_death.isSome then " - " else "")
          ++ (a.date_of_death.map fmt).getD "" := by
  rcases a with ⟨i, f, l, b, d⟩
  cases b <;> cases d <;> simp [Author.lifespan, hfmt]

theorem stampFmt_ne_empty (d : JSDate) : stampFmt d ≠ "" := by
  intro h
  have h2 := congrArg String.data h
  simp [stampFmt] at h2

theorem author_lifespan_spec_witness :
    Author.lifespan stampFmt ⟨"64b7f1a2c3d4e5f601234501", some "Ursula", some "Le Guin",
        some ⟨1⟩, some ⟨2⟩⟩ = stampFmt ⟨1⟩ ++ " - " ++ stampFmt ⟨2⟩ :=
  (author_lifespan_spec stampFmt stampFmt_ne_empty
    ⟨"64b7f1a2c3d4e5f601234501", some "Ursula", some "Le Guin", some ⟨1⟩, some ⟨2⟩⟩).1

/-! ## Deleting an Author or a Genre -/

theorem lowerHexDigit_of_lower (c : Char)
    (h : (decide (48 ≤ c.val.toNat) && decide (c.val.toNat ≤ 57)
      || decide (97 ≤ c.val.toNat) && decide (c.val.toNat ≤ 102)) = true) :
    lowerHexDigit c = c := by
  unfold lowerHexDigit
  split_ifs with h1 h2 h3 h4 h5 h6 <;>
    first
      | rfl
      | (exfalso; subst_vars; revert h; decide)

theorem map_lowerHexDigit_of_lower (cs : List Char)
    (h : cs.all (fun c => decide (48 ≤ c.val.toNat) && decide (c.val.toNat ≤ 57)
      || decide (97 ≤ c.val.toNat) && decide (c.val.toNat ≤ 102)) = true) :
    cs.map lowerHexDigit = cs := by
  induction cs with
  | nil => rfl
  | cons c cs ih =>
    rw [List.all_cons, Bool.and_eq_true] at h
    rw [List.map_cons, lowerHexDigit_of_lower c h.1, ih h.2]

theorem isHexDigit_of_lower (c : Char)
    (h : (decide (48 ≤ c.val.toNat) && decide (c.val.toNat ≤ 57)
      || decide (97 ≤ c.val.toNat) && decide (c.val.toNat ≤ 102)) = true) :
    isHexDigit c = true := by
  unfold isHexDigit
  simp only [Bool.or_eq_true, Bool.and_eq_true, decide_eq_true_eq] at h ⊢
  omega

/-- Every text of 24 lower-case hexadecimal digits, the form in which ids are
stored, casts to itself. -/
theorem castObjectId_canonical (s : String) (hlen : s.data.length = 24)
    (h : s.data.all (fun c => decide (48 ≤ c.val.toNat) && decide (c.val.toNat ≤ 57)
      || decide (97 ≤ c.val.toNat) && decide (c.val.toNat ≤ 102)) = true) :
    castObjectId s = some s := by
  have hall : s.data.all isHexDigit = true := by
    rw [List.all_eq_true] at h ⊢
    intro c hc
    exact isHexDigit_of_lower c (h c hc)
  unfold castObjectId
  rw [map_lowerHexDigit_of_lower s.data h]
  simp [hlen, hall]

/-- A request text that names no ObjectId makes `author_delete_post` pass the
cast error to `next` and leave the store as it is. -/
theorem author_delete_post_cast_error (s : Store) (raw : String)
    (hcast : castObjectId raw = none) :
    author_delete_post s raw = { actions := [Action.next castError], store := s } := by
  simp only [author_delete_post, hcast]

/-- A request text that names no ObjectId makes `genre_delete_post` throw in its
error branch and leave the store as it is. -/
theorem genre_delete_post_cast_error (s : Store) (raw : String)
    (hcast : castObjectId raw = none) :
    genre_delete_post s raw
      = { actions := [Action.throws JSError.referenceError], store := s } := by
  simp only [genre_delete_post, hcast]

/-- C1: for a request text that names the ObjectId `id`, `author_delete_post`
leaves the store unchanged when a Book references the id; otherwise it redirects to the author list, the Author with that id is
absent afterwards, and the call is a no-op when no such Author existed. An
existing Author is removed exactly when no Book references it. Books, Genres
and the other Authors are never changed. -/
theorem author_delete_post_contract (s : Store) (raw : String) (id : ObjectId)
    (h : s.uniqueIds) (hcast : castObjectId raw = some id) :
    ((∃ b ∈ s.books, b.author = id) →
        (author_delete_post s raw).store = s
        ∧ ∃ locals, (author_delete_post s raw).actions = [Action.render "author_delete" locals])
    ∧ ((∀ b ∈ s.books, b.author ≠ id) →
        (∀ a ∈ (author_delete_post s raw).store.authors, a._id ≠ id)
        ∧ (author_delete_post s raw).actions = [Action.redirect "/catalog/authors"])
    ∧ ((∀ b ∈ s.books, b.author ≠ id) → (∀ a ∈ s.authors, a._id ≠ id) →
        (author_delete_post s raw).store = s
        ∧ (author_delete_post s raw).actions = [Action.redirect "/catalog/authors"])
    ∧ ((∃ a ∈ s.authors, a._id = id) →
        ((∀ a ∈ (author_delete_post s raw).store.authors, a._id ≠ id)
          ↔ ∀ b ∈ s.books, b.author ≠ id))
    ∧ (author_delete_post s raw).store.books = s.books
    ∧ (author_delete_post s raw).store.genres = s.genres
    ∧ (author_delete_post s raw).store.authors.filter (fun a => a._id != id)
        = s.authors.filter (fun a => a._id != id) := by
  have hblocked : (∃ b ∈ s.books, b.author = id) → author_delete_post s raw
      = { actions :=
            [Action.render "author_delete"
              [("title", .str "Delete Author"),
               ("author", .author (Author.findById s id)),
               ("authors_books", .books (Book.find s (.author id)))]]
          store := s } := by
    intro hb
    have : (Book.find s (.author id)).length > 0 := by
      rw [book_find_author, filter_length_pos_iff]
      simpa using hb
    simp only [author_delete_post, hcast, this, if_true]
  have hfree : (∀ b ∈ s.books, b.author ≠ id) → author_delete_post s raw
      = { actions := [Action.redirect "/catalog/authors"]
          store := Author.findByIdAndRemove s id } := by
    intro hb
    have : ¬ (Book.find s (.author id)).length > 0 := by
      rw [book_find_author, filter_length_pos_iff]
      simpa using hb
    simp only [author_delete_post, hcast, this, if_false]
  refine ⟨?_, ?_, ?_, ?_, ?_, ?_, ?_⟩
  · intro hb
    rw [hblocked hb]
    exact ⟨rfl, _, rfl⟩
  · intro hb
    rw [hfree hb]
    exact ⟨eraseP_key_absent (fun a : Author => a._id) id s.authors h.1, rfl⟩
  · intro hb ha
    rw [hfree hb]
    refine ⟨?_, rfl⟩
    simp only [Author.findByIdAndRemove]
    rw [eraseP_key_noop (fun a : Author => a._id) id s.authors ha]
  · rintro ⟨a, ha, hid⟩
    constructor
    · intro habs b hb hba
      rw [hblocked ⟨b, hb, hba⟩] at habs
      exact habs a ha hid
    · intro hb
      rw [hfree hb]
      exact eraseP_key_absent (fun a : Author => a._id) id s.authors h.1
  · by_cases hb : ∃ b ∈ s.books, b.author = id
    · rw [hblocked hb]
    · push_neg at hb
      rw [hfree hb]
      rfl
  · by_cases hb : ∃ b ∈ s.books, b.author = id
    · rw [hblocked hb]
    · push_neg at hb
      rw [hfree hb]
      rfl
  · by_cases hb : ∃ b ∈ s.books, b.author = id
    · rw [hblocked hb]
    · push_neg at hb
      rw [hfree hb]
      exact filter_eraseP_key (fun a : Author => a._id) id s.authors

/-- C2: for a request text that names the ObjectId `id`, `genre_delete_post`
refuses the delete when a Book lists the genre: the
store is unchanged and `genre_delete` is rendered with `genre_books` equal to the
Books whose genre list contains the id. When no Book lists it (in particular
once the referencing Books are gone) the Genre is removed, the handler redirects
to the genre list, and every other record is unchanged. -/
theorem genre_delete_post_contract (s : Store) (raw : String) (id : ObjectId)
    (h : s.uniqueIds) (hcast : castObjectId raw = some id) :
    ((∃ b ∈ s.books, id ∈ b.genre) →
        (genre_delete_post s raw).store = s
        ∧ ∃ locals, (genre_delete_post s raw).actions = [Action.render "genre_delete" locals]
            ∧ viewLocal locals "genre_books"
                = Value.books (s.books.filter fun b => decide (id ∈ b.genre)))
    ∧ ((∀ b ∈ s.books, id ∉ b.genre) →
        (genre_delete_post s raw).actions = [Action.redirect "/catalog/genres"]
        ∧ (genre_delete_post s raw).store.genres = s.genres.eraseP (fun g => g._id == id)
        ∧ (∀ g ∈ (genre_delete_post s raw).store.genres, g._id ≠ id)
        ∧ (genre_delete_post s raw).store.genres.filter (fun g => g._id != id)
            = s.genres.filter (fun g => g._id != id)
        ∧ (genre_delete_post s raw).store.books = s.books
        ∧ (genre_delete_post s raw).store.authors = s.authors)
    ∧ ((genre_delete_post
          { s with books := s.books.filter fun b => !decide (id ∈ b.genre) } raw).actions
          = [Action.redirect "/catalog/genres"]
        ∧ ∀ g ∈ (genre_delete_post
            { s with books := s.books.filter fun b => !decide (id ∈ b.genre) } raw).store.genres,
            g._id ≠ id) := by
  have hfree : ∀ t : Store, (∀ b ∈ t.books, id ∉ b.genre) → genre_delete_post t raw
      = { actions := [Action.redirect "/catalog/genres"]
          store := Genre.findByIdAndRemove t id } := by
    intro t hb
    have : ¬ (Book.find t (.genre id)).length > 0 := by
      rw [book_find_genre, filter_length_pos_iff]
      simpa using hb
    simp only [genre_delete_post, hcast, this, if_false]
  refine ⟨?_, ?_, ?_⟩
  · intro hb
    have hpos : (Book.find s (.genre id)).length > 0 := by
      rw [book_find_genre, filter_length_pos_iff]
      simpa using hb
    have hblocked : genre_delete_post s raw
        = { actions :=
              [Action.render "genre_delete"
                [("title", .str "Delete Genre"),
                 ("genre", .genre (Genre.findById s id)),
                 ("genre_books", .books (Book.find s (.genre id)))]]
            store := s } := by
      simp only [genre_delete_post, hcast, hpos, if_true]
    rw [hblocked]
    refine ⟨rfl, _, rfl, ?_⟩
    rw [book_find_genre]
    rfl
  · intro hb
    rw [hfree s hb]
    refine ⟨rfl, rfl, ?_, ?_, rfl, rfl⟩
    · exact eraseP_key_absent (fun g : Genre => g._id) id s.genres h.2.1
    · exact filter_eraseP_key (fun g : Genre => g._id) id s.genres
  · have hb : ∀ b ∈ ({ s with books := s.books.filter fun b => !decide (id ∈ b.genre) }
        : Store).books, id ∉ b.genre := by
      intro b hb
      simpa using (List.mem_filter.1 hb).2
    rw [hfree _ hb]
    exact ⟨rfl, eraseP_key_absent (fun g : Genre => g._id) id s.genres h.2.1⟩

/-! ## Creating a Genre -/

theorem jsLength_pos_length (n : String) (h : 0 < jsLength n) : 1 ≤ n.length := by
  rcases n with ⟨cs⟩
  cases cs with
  | nil => simp [jsLength] at h
  | cons c cs => simp [String.length]

theorem genre_findOne_none_iff (s : Store) (n : String) :
    Genre.findOne s n = none ↔ ∀ g ∈ s.genres, g.name ≠ n := by
  simp [Genre.findOne]

theorem genre_create_post_store (s : Store) (newId : ObjectId) (n : String)
    (hlen : 3 ≤ jsLength n ∧ jsLength n ≤ 100) (htrim : trim n = n) (hesc : escape n = n)
    (hfresh : ∀ g ∈ s.genres, g._id ≠ newId) :
    (genre_create_post s newId n).store =
      match Genre.findOne s n with
      | some _ => s
      | none => { s with genres := s.genres ++ [⟨newId, n⟩] } := by
  have hlen1 : isLength n 1 = true := by
    simp only [isLength, decide_eq_true_eq]
    exact jsLength_pos_length n (by omega)
  have hne : n ≠ "" := by
    intro h0
    rw [h0] at hlen
    simp [jsLength] at hlen
  have hvalid : Genre.validateSync ⟨newId, n⟩ = true := by
    simp [Genre.validateSync, hne, hlen.1, hlen.2]
  have hdup : s.genres.any (fun h => h._id == newId) = false := by
    rw [List.any_eq_false]
    intro g hg
    simpa using hfresh g hg
  cases hf : Genre.findOne s n with
  | some g => simp [genre_create_post, htrim, hesc, hlen1, hf]
  | none => simp [genre_create_post, htrim, hesc, hlen1, hf, Genre.save, hvalid, hdup]

/-- C3: for a name of 3 to 100 characters (UTF-16 units, as the schema counts
them) that `trim` and `escape` leave unchanged, and a fresh generated `_id`:
`genre_create_post` leaves the store unchanged when a Genre with exactly that
name exists, and otherwise appends exactly one Genre with that name and changes
nothing else; names that were pairwise distinct stay pairwise distinct. -/
theorem genre_create_post_contract (s : Store) (newId : ObjectId) (n : String)
    (hlen : 3 ≤ jsLength n ∧ jsLength n ≤ 100) (htrim : trim n = n) (hesc : escape n = n)
    (hfresh : ∀ g ∈ s.genres, g._id ≠ newId) :
    ((∃ g ∈ s.genres, g.name = n) → (genre_create_post s newId n).store = s)
    ∧ ((∀ g ∈ s.genres, g.name ≠ n) →
        (genre_create_post s newId n).store.genres = s.genres ++ [⟨newId, n⟩]
        ∧ (genre_create_post s newId n).store.authors = s.authors
        ∧ (genre_create_post s newId n).store.books = s.books)
    ∧ ((s.genres.map fun g => g.name).Nodup →
        ((genre_create_post s newId n).store.genres.map fun g => g.name).Nodup) := by
  have key := genre_create_post_store s newId n hlen htrim hesc hfresh
  refine ⟨?_, ?_, ?_⟩
  · rintro ⟨g, hg, hgn⟩
    cases hf : Genre.findOne s n with
    | some g0 => rw [key, hf]
    | none => exact absurd hgn ((genre_findOne_none_iff s n).1 hf g hg)
  · intro hno
    have hf := (genre_findOne_none_iff s n).2 hno
    rw [key, hf]
    exact ⟨rfl, rfl, rfl⟩
  · intro hnd
    cases hf : Genre.findOne s n with
    | some g0 =>
      rw [key, hf]
      exact hnd
    | none =>
      rw [key, hf]
      have hno := (genre_findOne_none_iff s n).1 hf
      simp only [List.map_append, List.map_cons, List.map_nil]
      rw [List.nodup_append]
      refine ⟨hnd, List.nodup_singleton _, ?_⟩
      intro a ha hb
      rcases List.mem_map.1 ha with ⟨g, hg, rfl⟩
      exact hno g hg (List.mem_singleton.1 hb)

/-! ## Updating an Author -/

theorem escapeChar_of_alnum (c : Char) (h : (escapeChar c).all isAlnumChar = true) :
    escapeChar c = [c] := by
  unfold escapeChar at h ⊢
  simp only at h ⊢
  split_ifs at h ⊢ <;> first | rfl | (exfalso; revert h; decide)

theorem flatMap_escapeChar_of_alnum (cs : List Char)
    (h : (cs.flatMap escapeChar).all isAlnumChar = true) : cs.flatMap escapeChar = cs := by
  induction cs with
  | nil => rfl
  | cons c cs ih =>
    rw [List.flatMap_cons, List.all_append, Bool.and_eq_true] at h
    rw [List.flatMap_cons, escapeChar_of_alnum c h.1, ih h.2]
    rfl

theorem escape_of_alphanumeric (t : String) (h : isAlphanumeric (escape t) = true) :
    escape t = t := by
  unfold isAlphanumeric at h
  rw [Bool.and_eq_true] at h
  unfold escape at h ⊢
  rw [flatMap_escapeChar_of_alnum t.data h.2]

theorem find_of_unique {α : Type} (key : α → ObjectId) (l : List α)
    (h : (l.map key).Nodup) (a : α) (ha : a ∈ l) :
    l.find? (fun x => key x == key a) = some a := by
  induction l with
  | nil => cases ha
  | cons x xs ih =>
    rw [List.map_cons, List.nodup_cons] at h
    rcases List.mem_cons.1 ha with rfl | hmem
    · simp
    · have hx : key x ≠ key a := by
        intro he
        exact h.1 (he ▸ List.mem_map_of_mem key hmem)
      rw [List.find?_cons_of_neg _ (by simpa using hx)]
      exact ih h.2 hmem

theorem find_updateFirst (id : ObjectId) (f : Author → Author) (hf : ∀ a, (f a)._id = id)
    (l : List Author) :
    (updateFirst id f l).find? (fun a => a._id == id)
      = (l.find? (fun a => a._id == id)).map f := by
  induction l with
  | nil => rfl
  | cons x xs ih =>
    by_cases hx : x._id = id
    · simp [updateFirst, hx, hf]
    · simp [updateFirst, hx, ih]

theorem filter_updateFirst (id : ObjectId) (f : Author → Author) (hf : ∀ a, (f a)._id = id)
    (l : List Author) :
    (updateFirst id f l).filter (fun a => a._id != id) = l.filter (fun a => a._id != id) := by
  induction l with
  | nil => rfl
  | cons x xs ih =>
    by_cases hx : x._id = id
    · simp [updateFirst, hx, hf]
    · simp [updateFirst, hx, ih]

theorem map_id_updateFirst (id : ObjectId) (f : Author → Author) (hf : ∀ a, (f a)._id = id)
    (l : List Author) :
    (updateFirst id f l).map (fun a => a._id) = l.map (fun a => a._id) := by
  induction l with
  | nil => rfl
  | cons x xs ih =>
    by_cases hx : x._id = id
    · simp [updateFirst, hx, hf]
    · simp [updateFirst, hx, ih]

theorem authorUpdateErrors_nil (body : AuthorBody) (h : authorUpdateErrors body = []) :
    isAlphanumeric (escape (trim body.first_name)) = true
    ∧ isAlphanumeric (escape (trim body.family_name)) = true := by
  unfold authorUpdateErrors at h
  simp only [List.append_eq_nil, ite_eq_left_iff, ite_eq_right_iff, reduceCtorEq, imp_false,
    Bool.not_eq_true, Bool.not_eq_false] at h
  exact ⟨h.1.1.1.1.2, h.1.1.2⟩

/-- C5, as the code has it: updating an existing Author with a valid form
redirects to the Author and stores the trimmed names; each date becomes the date
that `toDate` makes of the submitted text when it makes one, becomes absent when
the field is submitted empty or `toDate` makes no date of the text, and keeps its
previous value when the field is missing from the request. The `_id`, the order
of the collection and every other record are unchanged. -/
theorem author_update_post_existing (s : Store) (id : ObjectId) (body : AuthorBody)
    (a : Author) (h : s.uniqueIds) (ha : a ∈ s.authors) (hid : a._id = id)
    (hvalid : authorUpdateErrors body = []) :
    (author_update_post s id body).actions = [Action.redirect a.url]
    ∧ Author.findById (author_update_post s id body).store id
        = some
            { _id := id
              first_name := some (trim body.first_name)
              family_name := some (trim body.family_name)
              date_of_birth :=
                match body.date_of_birth with
                | .missing => a.date_of_birth
                | .empty => none
                | .text _ (some d) => some d
                | .text _ none => none
              date_of_death :=
                match body.date_of_death with
                | .missing => a.date_of_death
                | .empty => none
                | .text _ (some d) => some d
                | .text _ none => none }
    ∧ (author_update_post s id body).store.authors.filter (fun x => x._id != id)
        = s.authors.filter (fun x => x._id != id)
    ∧ (author_update_post s id body).store.authors.map (fun x => x._id)
        = s.authors.map (fun x => x._id)
    ∧ (author_update_post s id body).store.books = s.books
    ∧ (author_update_post s id body).store.genres = s.genres := by
  obtain ⟨hfirst, hfamily⟩ := authorUpdateErrors_nil body hvalid
  subst hid
  have hfind : Author.findById s a._id = some a :=
    find_of_unique (fun x : Author => x._id) s.authors h.1 a ha
  have hrun : author_update_post s a._id body
      = { actions := [Action.redirect a.url]
          store :=
            { s with
              authors :=
                (updateFirst a._id
                  (AuthorDoc.applyTo
                    { first_name := escape (trim body.first_name)
                      family_name := escape (trim body.family_name)
                      date_of_birth := body.date_of_birth.toPath
                      date_of_death := body.date_of_death.toPath
                      _id := a._id }) s.authors) } } := by
    simp only [author_update_post, hvalid, List.isEmpty_nil, Bool.not_true, Bool.false_eq_true,
      if_false, Author.findByIdAndUpdate, hfind]
  have hf : ∀ x : Author, (AuthorDoc.applyTo
      { first_name := escape (trim body.first_name)
        family_name := escape (trim body.family_name)
        date_of_birth := body.date_of_birth.toPath
        date_of_death := body.date_of_death.toPath
        _id := a._id } x)._id = a._id := fun _ => rfl
  rw [hrun]
  refine ⟨rfl, ?_, ?_, ?_, rfl, rfl⟩
  · show (updateFirst a._id _ s.authors).find? (fun x => x._id == a._id) = _
    rw [find_updateFirst a._id _ hf]
    have hfind2 : s.authors.find? (fun x => x._id == a._id) = some a := hfind
    rw [hfind2, Option.map_some']
    simp only [AuthorDoc.applyTo, escape_of_alphanumeric _ hfirst,
      escape_of_alphanumeric _ hfamily]
    rcases hb : body.date_of_birth with _ | _ | ⟨ok, d⟩ <;>
      rcases hd : body.date_of_death with _ | _ | ⟨ok2, d2⟩ <;>
      first
        | rfl
        | (cases d <;> rfl)
        | (cases d2 <;> rfl)
        | (cases d <;> cases d2 <;> rfl)
  · exact filter_updateFirst a._id _ hf s.authors
  · exact map_id_updateFirst a._id _ hf s.authors

theorem author_update_post_existing_witness :
    Author.findById (author_update_post sampleStore austen._id datedBody).store austen._id
      = some
          { _id := "64b7f1a2c3d4e5f601234501"
            first_name := some "Jane"
            family_name := some "Austen"
            date_of_birth := some ⟨-6125241600000⟩
            date_of_death := none } :=
  (author_update_post_existing sampleStore austen._id datedBody austen
    (by decide) (by decide) rfl (by decide)).2.1

/-- C5 fails as stated: a valid update that carries no date fields leaves both
stored dates of the Author as they were, rather than making them absent. -/
theorem author_update_post_keeps_missing_dates :
    authorUpdateErrors namesOnlyBody = []
    ∧ namesOnlyBody.date_of_birth = DateField.missing
    ∧ namesOnlyBody.date_of_death = DateField.missing
    ∧ Author.findById sampleStore austen._id = some austen
    ∧ (Author.findById (author_update_post sampleStore austen._id namesOnlyBody).store
          austen._id).map (fun a => (a.date_of_birth, a.date_of_death))
        = some (some ⟨-6125328000000⟩, some ⟨-4812566400000⟩)
    ∧ (Author.findById (author_update_post sampleStore austen._id namesOnlyBody).store
          austen._id).map (fun a => (a.date_of_birth, a.date_of_death))
        ≠ some (none, none) := by
  decide

/-- C4 at the failing input: a valid update aimed at an id without Author leaves
the store unchanged but ends in a `TypeError` thrown by `theauthor.url`, not in
a call of `next` with a not-found error. -/
theorem author_update_post_missing_throws :
    Author.findById sampleStore "64b7f1a2c3d4e5f601234509" = none
    ∧ authorUpdateErrors namesOnlyBody = []
    ∧ author_update_post sampleStore "64b7f1a2c3d4e5f601234509" namesOnlyBody
        = { actions := [Action.throws JSError.typeError], store := sampleStore } := by
  decide

/-! ## Witnesses for the delete and create contracts -/

theorem author_delete_post_contract_witness :
    castObjectId "64B7F1A2C3D4E5F601234502" = some "64b7f1a2c3d4e5f601234502"
    ∧ (∀ a ∈ (author_delete_post sampleStore "64B7F1A2C3D4E5F601234502").store.authors,
        a._id ≠ "64b7f1a2c3d4e5f601234502")
    ∧ (author_delete_post sampleStore "64B7F1A2C3D4E5F601234502").actions
        = [Action.redirect "/catalog/authors"] :=
  ⟨by decide,
   (author_delete_post_contract sampleStore "64B7F1A2C3D4E5F601234502"
      "64b7f1a2c3d4e5f601234502" (by decide) (by decide)).2.1 (by decide)⟩

theorem genre_delete_post_contract_witness :
    (genre_delete_post sampleStore "64B7F1A2C3D4E5F601234511").store = sampleStore
    ∧ ∃ locals, (genre_delete_post sampleStore "64B7F1A2C3D4E5F601234511").actions
          = [Action.render "genre_delete" locals]
        ∧ viewLocal locals "genre_books"
            = Value.books (sampleStore.books.filter fun b =>
                decide ("64b7f1a2c3d4e5f601234511" ∈ b.genre)) :=
  (genre_delete_post_contract sampleStore "64B7F1A2C3D4E5F601234511"
    "64b7f1a2c3d4e5f601234511" (by decide) (by decide)).1 ⟨emma, by decide, by decide⟩

theorem genre_create_post_contract_witness :
    (genre_create_post sampleStore "64b7f1a2c3d4e5f601234519" "fantasy").store.genres
        = sampleStore.genres ++ [⟨"64b7f1a2c3d4e5f601234519", "fantasy"⟩]
    ∧ (genre_create_post sampleStore "64b7f1a2c3d4e5f601234519" "fantasy").store.authors
        = sampleStore.authors
    ∧ (genre_create_post sampleStore "64b7f1a2c3d4e5f601234519" "fantasy").store.books
        = sampleStore.books :=
  (genre_create_post_contract sampleStore "64b7f1a2c3d4e5f601234519" "fantasy"
    ⟨by decide, by decide⟩ (by decide) (by decide) (by decide)).2.1 (by decide)

/-! ## Responses that miss the documented target -/

/-- C8 at the failing input: creating a Genre whose name exists redirects to
`/catalog/genre/catalog`, the second piece of the split url, not to the url of
the existing record. -/
theorem genre_create_post_existing_redirect :
    Genre.findOne sampleStore "Fantasy" = some fantasy
    ∧ fantasy.url = "/catalog/genre/64b7f1a2c3d4e5f601234511"
    ∧ jsSplit fantasy.url '/' = ["", "catalog", "genre", "64b7f1a2c3d4e5f601234511"]
    ∧ (genre_create_post sampleStore "64b7f1a2c3d4e5f601234519" "Fantasy").actions
        = [Action.redirect "/catalog/genre/catalog"]
    ∧ (genre_create_post sampleStore "64b7f1a2c3d4e5f601234519" "Fantasy").actions
        ≠ [Action.redirect fantasy.url] := by
  decide

/-- C9 at the failing input: the blocked POST passes the referencing Books
under the key `authors_books`, so the key `author_books` that the GET render
fills is undefined and the two renders differ. -/
theorem author_delete_post_blocked_render :
    Book.find sampleStore (.author austen._id) = [emma]
    ∧ (renderedLocals (author_delete_get sampleStore austen._id)).map
          (fun l => viewLocal l "author_books") = [Value.books [emma]]
    ∧ (renderedLocals (author_delete_post sampleStore austen._id)).map
          (fun l => viewLocal l "author_books") = [Value.undefined]
    ∧ (author_delete_post sampleStore austen._id).actions
        ≠ (author_delete_get sampleStore austen._id).actions := by
  decide

/-- C10 at the failing input: for an existing Genre that a Book lists,
`genre_delete_get` renders `genre_delete` with `genre_books` undefined, because
it reads `results.book` while the lookup is stored under `books`. -/
theorem genre_delete_get_books_undefined :
    Genre.findById sampleStore fantasy._id = some fantasy
    ∧ (sampleStore.books.filter fun b => decide (fantasy._id ∈ b.genre)) = [emma]
    ∧ (genre_delete_get sampleStore fantasy._id).actions
        = [Action.render "genre_delete"
            [("title", .str "Delete Genre"),
             ("genre", .genre (some fantasy)),
             ("genre_books", .undefined)]] := by
  decide

/-! ## Update forms and response counts -/

/-- C11 at the failing input: the name `ab` has two characters after trimming,
yet `genre_update_post` reports no validation error, redirects to the Genre and
stores the name, which the schema of the model would reject. -/
theorem genre_update_post_short_name :
    (trim " ab ").length = 2
    ∧ Genre.findById sampleStore fantasy._id = some fantasy
    ∧ genre_update_post sampleStore fantasy._id " ab "
        = { actions := [Action.redirect "/catalog/genre/64b7f1a2c3d4e5f601234511"]
            store :=
              { authors := [austen, leGuin]
                genres := [{ _id := "64b7f1a2c3d4e5f601234511", name := "ab" }, poetry]
                books := [emma] } }
    ∧ Genre.validateSync { _id := "64b7f1a2c3d4e5f601234511", name := "ab" } = false := by
  decide

/-- C12 at the failing input: `author_update_get` answers 404 for an id without
Author and renders the form for an existing one, but `genre_update_get` looks the
id up among the Books: for the id of an existing Genre it answers 404, and for
the id of a Book it renders `genre_form` with that Book. -/
theorem genre_update_get_looks_up_book :
    Author.findById sampleStore "64b7f1a2c3d4e5f601234509" = none
    ∧ (author_update_get sampleStore "64b7f1a2c3d4e5f601234509").actions
        = [Action.next { message := "Author not found", status := some 404 }]
    ∧ (author_update_get sampleStore austen._id).actions
        = [Action.render "author_form"
            [("title", .str "Update author"), ("author", .author (some austen))]]
    ∧ Genre.findById sampleStore fantasy._id = some fantasy
    ∧ (genre_update_get sampleStore fantasy._id).actions
        = [Action.next { message := "genre not found", status := some 404 }]
    ∧ Genre.findById sampleStore emma._id = none
    ∧ (genre_update_get sampleStore emma._id).actions
        = [Action.render "genre_form"
            [("title", .str "Update genre"), ("genre", .book (some emma))]] := by
  decide

/-- C13 at the failing input: for an id that no record has, each of the three
delete forms first redirects to its list page and then also renders the delete
view with a null record, two responses instead of one. -/
theorem delete_get_missing_two_responses :
    Author.findById sampleStore "64b7f1a2c3d4e5f601234509" = none
    ∧ Genre.findById sampleStore "64b7f1a2c3d4e5f601234509" = none
    ∧ BookInstance.findById [emmaCopy] "64b7f1a2c3d4e5f601234509" = none
    ∧ (author_delete_get sampleStore "64b7f1a2c3d4e5f601234509").actions
        = [Action.redirect "/catalog/authors",
           Action.render "author_delete"
            [("title", .str "Delete Author"),
             ("author", .author none),
             ("author_books", .books [])]]
    ∧ (genre_delete_get sampleStore "64b7f1a2c3d4e5f601234509").actions
        = [Action.redirect "/catalog/genres",
           Action.render "genre_delete"
            [("title", .str "Delete Genre"),
             ("genre", .genre none),
             ("genre_books", .undefined)]]
    ∧ (bookinstance_delete_get sampleStore [emmaCopy] "64b7f1a2c3d4e5f601234509").actions
        = [Action.redirect "/catalog/bookinstances",
           Action.render "bookinstance_delete"
            [("title", .str "Delete Book Instance"),
             ("bookinstance", .bookinstance none)]]
    ∧ responseCount (author_delete_get sampleStore "64b7f1a2c3d4e5f601234509") = 2
    ∧ responseCount (genre_delete_get sampleStore "64b7f1a2c3d4e5f601234509") = 2
    ∧ responseCount
        (bookinstance_delete_get sampleStore [emmaCopy] "64b7f1a2c3d4e5f601234509") = 2 := by
  decide

end LocalLibrary
